import Mathlib

/-!
Shallow embedding of the paved-path library (src/paved_path/paved_path.py,
json_file.py, yaml_file.py).

The library manages a single file path with an in-memory content cache.
We model:
  * the filesystem's view of that one path as `Disk` (optional content
    paired with its modification time);
  * timestamps as natural numbers (aware datetimes form a total order;
    `astimezone` normalization is the identity on absolute instants);
  * the mutable cache fields of a `PavedPath` instance as `PState`
    (`cached_text`, `cached_bytes`, `cache_timestamp`);
  * each method as a state-passing function returning the outcome
    (`Res`), the updated cache state, the updated disk, and counters of
    raw content reads/writes actually performed (the instrumentation that
    lets us state "no disk content read happened");
  * Python exceptions as `Res.err` outcomes: the mutations performed
    before the raise are kept, exactly as in Python;
  * the environment of a write call (`WriteEnv`): whether the recursive
    `mkdir` of the parent and the raw write succeed, and the fresh
    modification time the file receives when written.
-/

/-- Error kinds surfaced by the modelled operations. -/
inductive Err : Type where
  | notFound
  | mkdirFailed
  | writeFailed
  | parseError
deriving DecidableEq, Repr

/-- Outcome of an operation: a normal return or a raised error. -/
inductive Res (α : Type) : Type where
  | ok (a : α)
  | err (e : Err)
deriving DecidableEq, Repr

/-- Content of the on-disk file: written as text or written as raw bytes
(bytes are modelled as lists of codepoints). -/
inductive Data : Type where
  | text (s : String)
  | bin (b : List Nat)
deriving DecidableEq, Repr

/-- Decode file data as text, as `Path.read_text` would. -/
def Data.asText : Data → String
  | .text s => s
  | .bin b => String.mk (b.map Char.ofNat)

/-- Encode file data as bytes, as `Path.read_bytes` would. -/
def Data.asBytes : Data → List Nat
  | .bin b => b
  | .text s => s.data.map Char.toNat

/-- The filesystem's view of the single path: `none` when the file does
not exist, otherwise its content and its modification time. -/
structure Disk : Type where
  file : Option (Data × Nat)
deriving DecidableEq, Repr

/-- Behaviour of the external filesystem during one write call: whether
the parent `mkdir` succeeds, whether the raw write succeeds, and the
fresh mtime the file receives on a successful write. -/
structure WriteEnv : Type where
  mkdirOk : Bool
  writeOk : Bool
  newMtime : Nat
deriving DecidableEq, Repr

/-- The cache fields of a `PavedPath` instance
(paved_path.py lines 25-27). -/
structure PState : Type where
  cached_text : Option String
  cached_bytes : Option (List Nat)
  cache_timestamp : Option Nat
deriving DecidableEq, Repr

/-- Result of a read operation: outcome, updated cache state, and the
number of raw disk content reads performed. -/
structure ReadRes (σ : Type) (α : Type) : Type where
  res : Res α
  st : σ
  rawReads : Nat
deriving DecidableEq, Repr

/-- Result of a write operation: outcome, updated cache state, updated
disk, and the number of raw disk content writes performed. -/
structure WriteRes (σ : Type) : Type where
  res : Res Nat
  st : σ
  disk : Disk
  rawWrites : Nat
deriving DecidableEq, Repr

namespace PavedPath

/-- `PavedPath.clear_cache` (paved_path.py lines 70-74). -/
def clear_cache (_st : PState) : PState :=
  { cached_text := none, cached_bytes := none, cache_timestamp := none }

/-- `PavedPath.aware_mtime` (paved_path.py lines 76-82): the file's
modification time, read fresh from the filesystem.  The Python method
raises when the file is missing; the model returns `none` there, and no
modelled execution path consults it in that case. -/
def aware_mtime (disk : Disk) : Option Nat :=
  disk.file.map (fun f => f.2)

/-- `PavedPath.is_up_to_date` (paved_path.py lines 84-104): false when
the file does not exist; true when it exists and no timestamp is given;
otherwise true iff the file's mtime is strictly newer than the given
timestamp.  The method reads only filesystem metadata and no cache
field, which the embedding reflects by not taking a `PState` at all. -/
def is_up_to_date (timestamp : Option Nat) (disk : Disk) : Bool :=
  match disk.file with
  | none => false
  | some (_, m) =>
    match timestamp with
    | none => true
    | some t => decide (t < m)

/-- `PavedPath.is_outdated` (paved_path.py lines 106-117). -/
def is_outdated (timestamp : Option Nat) (disk : Disk) : Bool :=
  !is_up_to_date timestamp disk

/-- `PavedPath.write_text` (paved_path.py lines 119-160): clear the
cache, make parent directories, perform the raw write, then (unless
`bypass_cache`) populate `cached_text` and set `cache_timestamp` to the
file's fresh mtime. -/
def write_text (data : String) (bypass_cache : Bool) (env : WriteEnv)
    (st : PState) (disk : Disk) : WriteRes PState :=
  let st := clear_cache st
  if env.mkdirOk then
    if env.writeOk then
      let disk : Disk := { file := some (Data.text data, env.newMtime) }
      let st :=
        if bypass_cache then st
        else { st with cached_text := some data,
                       cache_timestamp := aware_mtime disk }
      { res := Res.ok data.length, st := st, disk := disk, rawWrites := 1 }
    else
      { res := Res.err Err.writeFailed, st := st, disk := disk, rawWrites := 0 }
  else
    { res := Res.err Err.mkdirFailed, st := st, disk := disk, rawWrites := 0 }

/-- `PavedPath.write_bytes` (paved_path.py lines 162-189). -/
def write_bytes (data : List Nat) (bypass_cache : Bool) (env : WriteEnv)
    (st : PState) (disk : Disk) : WriteRes PState :=
  let st := clear_cache st
  if env.mkdirOk then
    if env.writeOk then
      let disk : Disk := { file := some (Data.bin data, env.newMtime) }
      let st :=
        if bypass_cache then st
        else { st with cached_bytes := some data,
                       cache_timestamp := aware_mtime disk }
      { res := Res.ok data.length, st := st, disk := disk, rawWrites := 1 }
    else
      { res := Res.err Err.writeFailed, st := st, disk := disk, rawWrites := 0 }
  else
    { res := Res.err Err.mkdirFailed, st := st, disk := disk, rawWrites := 0 }

/-- `PavedPath.read_text` (paved_path.py lines 207-249): with
`bypass_cache` do a raw read only; otherwise reload (raw read, cache the
text, stamp the fresh mtime) when the text cache is empty, `reload` is
set, or `check_file` finds the file newer than `cache_timestamp`; else
return the cached text untouched. -/
def read_text (reload check_file bypass_cache : Bool)
    (st : PState) (disk : Disk) : ReadRes PState String :=
  if bypass_cache then
    match disk.file with
    | some (d, _) => { res := Res.ok d.asText, st := st, rawReads := 1 }
    | none => { res := Res.err Err.notFound, st := st, rawReads := 0 }
  else if st.cached_text.isNone || reload
      || (check_file && is_up_to_date st.cache_timestamp disk) then
    match disk.file with
    | some (d, _) =>
      { res := Res.ok d.asText,
        st := { st with cached_text := some d.asText,
                        cache_timestamp := aware_mtime disk },
        rawReads := 1 }
    | none => { res := Res.err Err.notFound, st := st, rawReads := 0 }
  else
    { res := Res.ok (st.cached_text.getD ""), st := st, rawReads := 0 }

/-- `PavedPath.read_bytes` (paved_path.py lines 251-289). -/
def read_bytes (reload check_file bypass_cache : Bool)
    (st : PState) (disk : Disk) : ReadRes PState (List Nat) :=
  if bypass_cache then
    match disk.file with
    | some (d, _) => { res := Res.ok d.asBytes, st := st, rawReads := 1 }
    | none => { res := Res.err Err.notFound, st := st, rawReads := 0 }
  else if st.cached_bytes.isNone || reload
      || (check_file && is_up_to_date st.cache_timestamp disk) then
    match disk.file with
    | some (d, _) =>
      { res := Res.ok d.asBytes,
        st := { st with cached_bytes := some d.asBytes,
                        cache_timestamp := aware_mtime disk },
        rawReads := 1 }
    | none => { res := Res.err Err.notFound, st := st, rawReads := 0 }
  else
    { res := Res.ok (st.cached_bytes.getD []), st := st, rawReads := 0 }

end PavedPath

/-!
The JSON collaborator (`json.dumps` / `json.loads` with default options)
is modelled on the fragment of JSON-serializable Python values the
library handles: `None`, booleans, integers, strings without escapes,
lists, and dicts whose keys are strings or integers.  `json.dumps`
renders an integer dict key as its decimal string; `json.loads` only
ever produces string keys — the round-trip asymmetry that matters to the
adapters' contract.
-/

/-- A Python dict key as JSON sees it: a string or an integer. -/
inductive JKey : Type where
  | kstr (s : String)
  | kint (n : Int)
deriving DecidableEq, Repr

/-- The modelled fragment of JSON-serializable Python values. -/
inductive JValue : Type where
  | jnull
  | jbool (b : Bool)
  | jnum (n : Int)
  | jstr (s : String)
  | jarr (elems : List JValue)
  | jobj (entries : List (JKey × JValue))
deriving Repr

/-- How `json.dumps` renders a dict key: integer keys become their
decimal string form. -/
def JKey.dumpKey : JKey → String
  | .kstr s => "\"" ++ s ++ "\""
  | .kint n => "\"" ++ toString n ++ "\""

mutual

/-- `json.dumps` with default options (separators `", "` and `": "`). -/
def dumps : JValue → String
  | .jnull => "null"
  | .jbool true => "true"
  | .jbool false => "false"
  | .jnum n => toString n
  | .jstr s => "\"" ++ s ++ "\""
  | .jarr xs => "[" ++ dumpsElems xs ++ "]"
  | .jobj kvs => "\x7b" ++ dumpsEntries kvs ++ "\x7d"

/-- Comma-separated rendering of array elements. -/
def dumpsElems : List JValue → String
  | [] => ""
  | [x] => dumps x
  | x :: xs => dumps x ++ ", " ++ dumpsElems xs

/-- Comma-separated rendering of object entries. -/
def dumpsEntries : List (JKey × JValue) → String
  | [] => ""
  | [(k, v)] => JKey.dumpKey k ++ ": " ++ dumps v
  | (k, v) :: kvs => JKey.dumpKey k ++ ": " ++ dumps v ++ ", " ++ dumpsEntries kvs

end

/-- JSON whitespace. -/
def isWsChar (c : Char) : Bool :=
  c = ' ' || c = '\t' || c = '\n' || c = '\r'

/-- Drop leading JSON whitespace. -/
def skipWs : List Char → List Char
  | c :: rest => if isWsChar c then skipWs rest else c :: rest
  | [] => []

/-- Scan a string literal body up to the closing quote (the modelled
fragment has no escapes). -/
def takeStr : List Char → Option (List Char × List Char)
  | [] => none
  | c :: rest =>
    if c = '"' then some ([], rest)
    else (takeStr rest).map (fun p => (c :: p.1, p.2))

/-- Value of a decimal digit. -/
def digitVal (c : Char) : Option Nat :=
  if '0' ≤ c ∧ c ≤ '9' then some (c.toNat - '0'.toNat) else none

/-- Take a maximal run of decimal digits. -/
def takeDigits : List Char → (List Nat × List Char)
  | [] => ([], [])
  | c :: rest =>
    match digitVal c with
    | some d =>
      let p := takeDigits rest
      (d :: p.1, p.2)
    | none => ([], c :: rest)

/-- Accumulate a digit run into a number. -/
def digitsToNat (acc : Nat) : List Nat → Nat
  | [] => acc
  | d :: ds => digitsToNat (acc * 10 + d) ds

/-- Parse an optionally signed integer literal. -/
def parseNum : List Char → Option (Int × List Char)
  | '-' :: rest =>
    match takeDigits rest with
    | ([], _) => none
    | (ds, r) => some (-(Int.ofNat (digitsToNat 0 ds)), r)
  | cs =>
    match takeDigits cs with
    | ([], _) => none
    | (ds, r) => some (Int.ofNat (digitsToNat 0 ds), r)

mutual

/-- Recursive-descent `json.loads` on the modelled fragment, with fuel
bounding the recursion depth. -/
def parseValue : Nat → List Char → Option (JValue × List Char)
  | 0, _ => none
  | f + 1, cs =>
    match skipWs cs with
    | '"' :: rest => (takeStr rest).map (fun p => (JValue.jstr (String.mk p.1), p.2))
    | '\x7b' :: rest =>
      match skipWs rest with
      | '\x7d' :: r2 => some (JValue.jobj [], r2)
      | _ => (parseEntries f rest).map (fun p => (JValue.jobj p.1, p.2))
    | '[' :: rest =>
      match skipWs rest with
      | ']' :: r2 => some (JValue.jarr [], r2)
      | _ => (parseElems f rest).map (fun p => (JValue.jarr p.1, p.2))
    | 't' :: 'r' :: 'u' :: 'e' :: rest => some (JValue.jbool true, rest)
    | 'f' :: 'a' :: 'l' :: 's' :: 'e' :: rest => some (JValue.jbool false, rest)
    | 'n' :: 'u' :: 'l' :: 'l' :: rest => some (JValue.jnull, rest)
    | cs2 => (parseNum cs2).map (fun p => (JValue.jnum p.1, p.2))

/-- Parse the non-empty entry list of a JSON object (keys are always
strings on the parse side, as in Python). -/
def parseEntries : Nat → List Char → Option (List (JKey × JValue) × List Char)
  | 0, _ => none
  | f + 1, cs =>
    match skipWs cs with
    | '"' :: rest =>
      match takeStr rest with
      | some (kcs, r1) =>
        match skipWs r1 with
        | ':' :: r2 =>
          match parseValue f r2 with
          | some (v, r3) =>
            match skipWs r3 with
            | ',' :: r4 =>
              (parseEntries f r4).map
                (fun p => ((JKey.kstr (String.mk kcs), v) :: p.1, p.2))
            | '\x7d' :: r4 => some ([(JKey.kstr (String.mk kcs), v)], r4)
            | _ => none
          | none => none
        | _ => none
      | none => none
    | _ => none

/-- Parse the non-empty element list of a JSON array. -/
def parseElems : Nat → List Char → Option (List JValue × List Char)
  | 0, _ => none
  | f + 1, cs =>
    match parseValue f cs with
    | some (v, r) =>
      match skipWs r with
      | ',' :: r2 => (parseElems f r2).map (fun p => (v :: p.1, p.2))
      | ']' :: r2 => some ([v], r2)
      | _ => none
    | none => none

end

/-- `json.loads` on the modelled fragment: parse one value and require
only whitespace to remain. -/
def loads (s : String) : Option JValue :=
  match parseValue (s.length + 1) s.data with
  | some (v, rest) => if skipWs rest = [] then some v else none
  | none => none

example : loads (dumps (JValue.jobj [(JKey.kint 1, JValue.jnum 2)]))
    = some (JValue.jobj [(JKey.kstr "1", JValue.jnum 2)]) := by rfl

/-- The cache fields of a `JSONFile` instance: the inherited `PavedPath`
fields plus `cached_json` (json_file.py line 34). -/
structure JState : Type where
  cached_text : Option String
  cached_bytes : Option (List Nat)
  cache_timestamp : Option Nat
  cached_json : Option JValue
deriving Repr

/-- The inherited `PavedPath` fields of a `JSONFile`. -/
def JState.toP (st : JState) : PState :=
  { cached_text := st.cached_text,
    cached_bytes := st.cached_bytes,
    cache_timestamp := st.cache_timestamp }

namespace JSONFile

/-- `JSONFile.clear_cache` (json_file.py lines 36-39): clear
`cached_json`, then the inherited fields. -/
def clear_cache (_st : JState) : JState :=
  { cached_text := none, cached_bytes := none, cache_timestamp := none,
    cached_json := none }

/-- `PavedPath.read_text` invoked on a `JSONFile`: the inherited body
runs on the shared fields and never touches `cached_json`. -/
def read_text (reload check_file bypass_cache : Bool)
    (st : JState) (disk : Disk) : ReadRes JState String :=
  let base := PavedPath.read_text reload check_file bypass_cache st.toP disk
  { res := base.res,
    st := { cached_text := base.st.cached_text,
            cached_bytes := base.st.cached_bytes,
            cache_timestamp := base.st.cache_timestamp,
            cached_json := st.cached_json },
    rawReads := base.rawReads }

/-- `PavedPath.read_bytes` invoked on a `JSONFile`. -/
def read_bytes (reload check_file bypass_cache : Bool)
    (st : JState) (disk : Disk) : ReadRes JState (List Nat) :=
  let base := PavedPath.read_bytes reload check_file bypass_cache st.toP disk
  { res := base.res,
    st := { cached_text := base.st.cached_text,
            cached_bytes := base.st.cached_bytes,
            cache_timestamp := base.st.cache_timestamp,
            cached_json := st.cached_json },
    rawReads := base.rawReads }

/-- `PavedPath.write_text` invoked on a `JSONFile`: `self.clear_cache()`
dispatches to the override, so `cached_json` is cleared up front and
nothing later in the body repopulates it. -/
def write_text (data : String) (bypass_cache : Bool) (env : WriteEnv)
    (st : JState) (disk : Disk) : WriteRes JState :=
  let base := PavedPath.write_text data bypass_cache env st.toP disk
  { res := base.res,
    st := { cached_text := base.st.cached_text,
            cached_bytes := base.st.cached_bytes,
            cache_timestamp := base.st.cache_timestamp,
            cached_json := none },
    disk := base.disk,
    rawWrites := base.rawWrites }

/-- `JSONFile.write_json` (json_file.py lines 41-63): serialize with
`json.dumps` and delegate to `write_text` — no round-trip check, no
repopulation of `cached_json` ("No write through caches because the
content being written may be different after it is dumped to a
string"). -/
def write_json (data : JValue) (env : WriteEnv)
    (st : JState) (disk : Disk) : WriteRes JState :=
  write_text (dumps data) false env st disk

/-- `JSONFile.read_json` (json_file.py lines 65-100): refresh when the
parsed cache is empty, `reload` is set, or `check_file` finds the file
newer than the cache timestamp; the refresh re-reads text via
`self.read_text(reload=reload, check_file=check_file)` and parses it. -/
def read_json (reload check_file : Bool)
    (st : JState) (disk : Disk) : ReadRes JState JValue :=
  if st.cached_json.isNone || reload
      || (check_file && PavedPath.is_up_to_date st.cache_timestamp disk) then
    let t := read_text reload check_file false st disk
    match t.res with
    | Res.ok text =>
      match loads text with
      | some v =>
        { res := Res.ok v,
          st := { t.st with cached_json := some v },
          rawReads := t.rawReads }
      | none => { res := Res.err Err.parseError, st := t.st, rawReads := t.rawReads }
    | Res.err e => { res := Res.err e, st := t.st, rawReads := t.rawReads }
  else
    { res := Res.ok (st.cached_json.getD JValue.jnull), st := st, rawReads := 0 }

end JSONFile

/-!
The YAML adapter is structurally identical to the JSON adapter but its
serializer is the external `yaml.safe_dump` / `yaml.safe_load` pair.
We model YAML documents as an arbitrary type `V` and pass the
collaborator's functions explicitly: `dumpT` for `safe_dump` returning
text (`encoding=None`), `dumpB` for `safe_dump` returning bytes (an
encoding given), and `loadY` for `safe_load` (`none` models a parser
error). -/

/-- The cache fields of a `YAMLFile` instance: the inherited `PavedPath`
fields plus `cached_yaml` (yaml_file.py line 30). -/
structure YState (V : Type) : Type where
  cached_text : Option String
  cached_bytes : Option (List Nat)
  cache_timestamp : Option Nat
  cached_yaml : Option V

/-- The inherited `PavedPath` fields of a `YAMLFile`. -/
def YState.toP {V : Type} (st : YState V) : PState :=
  { cached_text := st.cached_text,
    cached_bytes := st.cached_bytes,
    cache_timestamp := st.cache_timestamp }

namespace YAMLFile

/-- `YAMLFile.clear_cache` (yaml_file.py lines 32-35). -/
def clear_cache {V : Type} (_st : YState V) : YState V :=
  { cached_text := none, cached_bytes := none, cache_timestamp := none,
    cached_yaml := none }

/-- `PavedPath.read_text` invoked on a `YAMLFile`: the inherited body
never touches `cached_yaml`. -/
def read_text {V : Type} (reload check_file bypass_cache : Bool)
    (st : YState V) (disk : Disk) : ReadRes (YState V) String :=
  let base := PavedPath.read_text reload check_file bypass_cache st.toP disk
  { res := base.res,
    st := { cached_text := base.st.cached_text,
            cached_bytes := base.st.cached_bytes,
            cache_timestamp := base.st.cache_timestamp,
            cached_yaml := st.cached_yaml },
    rawReads := base.rawReads }

/-- `PavedPath.read_bytes` invoked on a `YAMLFile`. -/
def read_bytes {V : Type} (reload check_file bypass_cache : Bool)
    (st : YState V) (disk : Disk) : ReadRes (YState V) (List Nat) :=
  let base := PavedPath.read_bytes reload check_file bypass_cache st.toP disk
  { res := base.res,
    st := { cached_text := base.st.cached_text,
            cached_bytes := base.st.cached_bytes,
            cache_timestamp := base.st.cache_timestamp,
            cached_yaml := st.cached_yaml },
    rawReads := base.rawReads }

/-- `PavedPath.write_text` invoked on a `YAMLFile`: the dispatched
`clear_cache` clears `cached_yaml` and nothing repopulates it. -/
def write_text {V : Type} (data : String) (bypass_cache : Bool)
    (env : WriteEnv) (st : YState V) (disk : Disk) : WriteRes (YState V) :=
  let base := PavedPath.write_text data bypass_cache env st.toP disk
  { res := base.res,
    st := { cached_text := base.st.cached_text,
            cached_bytes := base.st.cached_bytes,
            cache_timestamp := base.st.cache_timestamp,
            cached_yaml := none },
    disk := base.disk,
    rawWrites := base.rawWrites }

/-- `PavedPath.write_bytes` invoked on a `YAMLFile`. -/
def write_bytes {V : Type} (data : List Nat) (bypass_cache : Bool)
    (env : WriteEnv) (st : YState V) (disk : Disk) : WriteRes (YState V) :=
  let base := PavedPath.write_bytes data bypass_cache env st.toP disk
  { res := base.res,
    st := { cached_text := base.st.cached_text,
            cached_bytes := base.st.cached_bytes,
            cache_timestamp := base.st.cache_timestamp,
            cached_yaml := none },
    disk := base.disk,
    rawWrites := base.rawWrites }

/-- `YAMLFile.safe_write_yaml` (yaml_file.py lines 37-71): pop the
`encoding` option; a truthy (non-empty) encoding routes the dump through
`write_bytes`, otherwise through `write_text` — no round-trip check, no
repopulation of `cached_yaml`. -/
def safe_write_yaml {V : Type} (dumpT : V → String) (dumpB : V → List Nat)
    (encoding : Option String) (data : V) (env : WriteEnv)
    (st : YState V) (disk : Disk) : WriteRes (YState V) :=
  if (encoding.getD "").isEmpty then
    write_text (dumpT data) false env st disk
  else
    write_bytes (dumpB data) false env st disk

/-- `YAMLFile.safe_read_yaml` (yaml_file.py lines 73-104): refresh when
the parsed cache is empty, `reload` is set, or `check_file` finds the
file newer than the cache timestamp; the refresh re-reads text via
`self.read_text(reload=reload, check_file=check_file)` and parses it. -/
def safe_read_yaml {V : Type} [Inhabited V] (loadY : String → Option V)
    (reload check_file : Bool)
    (st : YState V) (disk : Disk) : ReadRes (YState V) V :=
  if st.cached_yaml.isNone || reload
      || (check_file && PavedPath.is_up_to_date st.cache_timestamp disk) then
    let t := read_text reload check_file false st disk
    match t.res with
    | Res.ok text =>
      match loadY text with
      | some v =>
        { res := Res.ok v,
          st := { t.st with cached_yaml := some v },
          rawReads := t.rawReads }
      | none => { res := Res.err Err.parseError, st := t.st, rawReads := t.rawReads }
    | Res.err e => { res := Res.err e, st := t.st, rawReads := t.rawReads }
  else
    { res := Res.ok (st.cached_yaml.getD default), st := st, rawReads := 0 }

end YAMLFile

/-!
Theorems for the claims.  Each claim has one theorem; proved theorems
with hypotheses additionally have a closed witness instantiation.
-/

/-- Claim C2: after `write_text x` with default flags, an immediately
following `read_text()` with no modifiers returns exactly `x` with no
raw disk content read and no cache change, whatever the on-disk file was
changed to in between (`disk2` is arbitrary). -/
theorem write_then_read_text_cached (x : String) (env : WriteEnv)
    (st : PState) (disk disk2 : Disk)
    (hm : env.mkdirOk = true) (hw : env.writeOk = true) :
    (PavedPath.read_text false false false
        (PavedPath.write_text x false env st disk).st disk2).res = Res.ok x
  ∧ (PavedPath.read_text false false false
        (PavedPath.write_text x false env st disk).st disk2).rawReads = 0
  ∧ (PavedPath.read_text false false false
        (PavedPath.write_text x false env st disk).st disk2).st
      = (PavedPath.write_text x false env st disk).st := by
  simp [PavedPath.write_text, PavedPath.read_text, PavedPath.clear_cache,
    PavedPath.aware_mtime, hm, hw]

/-- Witness for C2 at a concrete input: the on-disk file is replaced by
"tampered" after the write, yet the read still returns "hello". -/
theorem write_then_read_text_cached_witness :
    (PavedPath.read_text false false false
        (PavedPath.write_text "hello" false ⟨true, true, 3⟩ ⟨none, none, none⟩
          ⟨none⟩).st
        ⟨some (Data.text "tampered", 9)⟩).res = Res.ok "hello" :=
  (write_then_read_text_cached "hello" ⟨true, true, 3⟩ ⟨none, none, none⟩ ⟨none⟩
    ⟨some (Data.text "tampered", 9)⟩ rfl rfl).1

/-- Claim C3: a successful non-bypassed `write_text`/`write_bytes`
populates exactly the matching cache slot with the written data, leaves
the opposite slot empty, and stamps `cache_timestamp` with the file's
fresh on-disk mtime; with `bypass_cache` both slots and the timestamp
are left empty. -/
theorem write_cache_population (td : String) (bd : List Nat) (env : WriteEnv)
    (st : PState) (disk : Disk)
    (hm : env.mkdirOk = true) (hw : env.writeOk = true) :
    (PavedPath.write_text td false env st disk).st
        = ⟨some td, none, some env.newMtime⟩
  ∧ (PavedPath.write_text td false env st disk).st.cache_timestamp
        = PavedPath.aware_mtime (PavedPath.write_text td false env st disk).disk
  ∧ (PavedPath.write_bytes bd false env st disk).st
        = ⟨none, some bd, some env.newMtime⟩
  ∧ (PavedPath.write_bytes bd false env st disk).st.cache_timestamp
        = PavedPath.aware_mtime (PavedPath.write_bytes bd false env st disk).disk
  ∧ (PavedPath.write_text td true env st disk).st = ⟨none, none, none⟩
  ∧ (PavedPath.write_bytes bd true env st disk).st = ⟨none, none, none⟩ := by
  simp [PavedPath.write_text, PavedPath.write_bytes, PavedPath.clear_cache,
    PavedPath.aware_mtime, hm, hw]

/-- Witness for C3 at a concrete input. -/
theorem write_cache_population_witness :
    (PavedPath.write_text "a" false ⟨true, true, 7⟩
        ⟨some "old", some [1], some 2⟩ ⟨none⟩).st = ⟨some "a", none, some 7⟩
  ∧ (PavedPath.write_bytes [9] true ⟨true, true, 7⟩
        ⟨some "old", some [1], some 2⟩ ⟨none⟩).st = ⟨none, none, none⟩ :=
  ⟨(write_cache_population "a" [9] ⟨true, true, 7⟩
      ⟨some "old", some [1], some 2⟩ ⟨none⟩ rfl rfl).1,
   (write_cache_population "a" [9] ⟨true, true, 7⟩
      ⟨some "old", some [1], some 2⟩ ⟨none⟩ rfl rfl).2.2.2.2.2⟩

/-- Claim C4: `is_up_to_date` is false when the file does not exist,
true when it exists and no timestamp is supplied, and otherwise true iff
the file's mtime is strictly newer than the reference timestamp;
`is_outdated` is its pointwise negation.  Both are embedded as pure
queries: they take no cache state, mirroring that the Python bodies read
no cache field. -/
theorem is_up_to_date_spec (ts : Option Nat) (disk : Disk) :
    (disk.file = none → PavedPath.is_up_to_date ts disk = false)
  ∧ (∀ f, disk.file = some f → ts = none →
      PavedPath.is_up_to_date ts disk = true)
  ∧ (∀ d m t, disk.file = some (d, m) → ts = some t →
      (PavedPath.is_up_to_date ts disk = true ↔ t < m))
  ∧ PavedPath.is_outdated ts disk = !PavedPath.is_up_to_date ts disk := by
  refine ⟨?_, ?_, ?_, rfl⟩
  · intro h
    simp [PavedPath.is_up_to_date, h]
  · rintro ⟨d, m⟩ h rfl
    simp [PavedPath.is_up_to_date, h]
  · rintro d m t h rfl
    simp [PavedPath.is_up_to_date, h]

/-- Witness for C4 at concrete inputs: an existing file with mtime 5 is
up to date against reference timestamp 3 and is not outdated. -/
theorem is_up_to_date_spec_witness :
    PavedPath.is_up_to_date (some 3) ⟨some (Data.text "a", 5)⟩ = true
  ∧ PavedPath.is_outdated none ⟨none⟩ = true := by
  refine ⟨?_, ?_⟩
  · exact ((is_up_to_date_spec (some 3) ⟨some (Data.text "a", 5)⟩).2.2.1
      (Data.text "a") 5 3 rfl rfl).mpr (by norm_num)
  · have h := (is_up_to_date_spec none ⟨none⟩)
    rw [h.2.2.2, h.1 rfl]
    rfl

/-- Claim C5: with a populated text cache (content `c`, timestamp `t`)
and an existing on-disk file of mtime `m`, `read_text(check_file=true)`
performs a fresh disk read (returning the disk content, recaching it and
restamping the timestamp) iff `t < m`; otherwise — and likewise when the
file does not exist at all — it returns the cached value with no cache
mutation and no raw content read. -/
theorem read_text_check_file_spec (c : String) (t : Nat) (d : Data) (m : Nat)
    (st : PState) (disk : Disk)
    (hc : st.cached_text = some c) (ht : st.cache_timestamp = some t)
    (hd : disk.file = some (d, m)) :
    (t < m →
      PavedPath.read_text false true false st disk
        = ⟨Res.ok d.asText,
           { st with cached_text := some d.asText, cache_timestamp := some m },
           1⟩)
  ∧ (¬ t < m →
      PavedPath.read_text false true false st disk = ⟨Res.ok c, st, 0⟩)
  ∧ (∀ disk0 : Disk, disk0.file = none →
      PavedPath.read_text false true false st disk0 = ⟨Res.ok c, st, 0⟩) := by
  refine ⟨?_, ?_, ?_⟩
  · intro hlt
    simp [PavedPath.read_text, PavedPath.is_up_to_date, PavedPath.aware_mtime,
      hc, ht, hd, hlt]
  · intro hge
    simp [PavedPath.read_text, PavedPath.is_up_to_date, PavedPath.aware_mtime,
      hc, ht, hd, hge]
  · intro disk0 h0
    simp [PavedPath.read_text, PavedPath.is_up_to_date, PavedPath.aware_mtime,
      hc, ht, h0]

/-- Witness for C5 at concrete inputs, both directions: a newer file
(mtime 9 > timestamp 5) is re-read; an older file (mtime 5 not newer
than timestamp 5) leaves the stale cache in place. -/
theorem read_text_check_file_spec_witness :
    PavedPath.read_text false true false ⟨some "old", none, some 5⟩
        ⟨some (Data.text "new", 9)⟩
      = ⟨Res.ok "new", ⟨some "new", none, some 9⟩, 1⟩
  ∧ PavedPath.read_text false true false ⟨some "old", none, some 5⟩
        ⟨some (Data.text "new", 5)⟩
      = ⟨Res.ok "old", ⟨some "old", none, some 5⟩, 0⟩ :=
  ⟨(read_text_check_file_spec "old" 5 (Data.text "new") 9
      ⟨some "old", none, some 5⟩ ⟨some (Data.text "new", 9)⟩
      rfl rfl rfl).1 (by norm_num),
   (read_text_check_file_spec "old" 5 (Data.text "new") 5
      ⟨some "old", none, some 5⟩ ⟨some (Data.text "new", 5)⟩
      rfl rfl rfl).2.1 (by norm_num)⟩

/-- Claim C6: when the file does not exist and the underlying disk read
is attempted (`bypass_cache`, or an empty matching cache slot, or
`reload` — with a missing file `check_file` can never trigger a read),
`read_text`/`read_bytes` raise the not-found error and leave every cache
field exactly as it was. -/
theorem read_missing_file_spec (r c b : Bool) (st : PState) :
    ((b = true ∨ st.cached_text = none ∨ r = true) →
      PavedPath.read_text r c b st ⟨none⟩ = ⟨Res.err Err.notFound, st, 0⟩)
  ∧ ((b = true ∨ st.cached_bytes = none ∨ r = true) →
      PavedPath.read_bytes r c b st ⟨none⟩ = ⟨Res.err Err.notFound, st, 0⟩) := by
  constructor
  · rintro (hb | hn | hr)
    · simp [PavedPath.read_text, hb]
    · cases hbv : b <;>
        simp [PavedPath.read_text, hbv, hn]
    · cases hbv : b <;>
        simp [PavedPath.read_text, hbv, hr]
  · rintro (hb | hn | hr)
    · simp [PavedPath.read_bytes, hb]
    · cases hbv : b <;>
        simp [PavedPath.read_bytes, hbv, hn]
    · cases hbv : b <;>
        simp [PavedPath.read_bytes, hbv, hr]

/-- Witness for C6 at a concrete input: a read of a missing file with a
fully populated cache and `reload=true` raises and leaves the cache
intact. -/
theorem read_missing_file_spec_witness :
    PavedPath.read_text true false false ⟨some "x", some [1], some 4⟩ ⟨none⟩
      = ⟨Res.err Err.notFound, ⟨some "x", some [1], some 4⟩, 0⟩
  ∧ PavedPath.read_bytes false false false ⟨some "x", none, some 4⟩ ⟨none⟩
      = ⟨Res.err Err.notFound, ⟨some "x", none, some 4⟩, 0⟩ :=
  ⟨(read_missing_file_spec true false false ⟨some "x", some [1], some 4⟩).1
      (Or.inr (Or.inr rfl)),
   (read_missing_file_spec false false false ⟨some "x", none, some 4⟩).2
      (Or.inr (Or.inl rfl))⟩

/-- Claim C7: every `write_text`/`write_bytes` call clears the whole
cache before attempting the disk write, so a failed parent-`mkdir` or a
failed raw write leaves the cache empty (both slots and the timestamp
`none`), the disk unwritten, and surfaces the error. -/
theorem write_failure_clears_cache (td : String) (bd : List Nat)
    (byp : Bool) (env : WriteEnv) (st : PState) (disk : Disk)
    (h : env.mkdirOk = false ∨ env.writeOk = false) :
    ((PavedPath.write_text td byp env st disk).st = ⟨none, none, none⟩
      ∧ (PavedPath.write_text td byp env st disk).disk = disk
      ∧ (PavedPath.write_text td byp env st disk).rawWrites = 0
      ∧ ((PavedPath.write_text td byp env st disk).res = Res.err Err.mkdirFailed
        ∨ (PavedPath.write_text td byp env st disk).res = Res.err Err.writeFailed))
  ∧ ((PavedPath.write_bytes bd byp env st disk).st = ⟨none, none, none⟩
      ∧ (PavedPath.write_bytes bd byp env st disk).disk = disk
      ∧ (PavedPath.write_bytes bd byp env st disk).rawWrites = 0
      ∧ ((PavedPath.write_bytes bd byp env st disk).res = Res.err Err.mkdirFailed
        ∨ (PavedPath.write_bytes bd byp env st disk).res = Res.err Err.writeFailed)) := by
  rcases h with hm | hw
  · constructor <;>
      simp [PavedPath.write_text, PavedPath.write_bytes, PavedPath.clear_cache, hm]
  · cases hm : env.mkdirOk <;>
      constructor <;>
        simp [PavedPath.write_text, PavedPath.write_bytes, PavedPath.clear_cache,
          hm, hw]

/-- Witness for C7 at a concrete input: a write whose raw disk write
fails leaves a previously populated cache empty. -/
theorem write_failure_clears_cache_witness :
    (PavedPath.write_text "new" false ⟨true, false, 9⟩
        ⟨some "old", some [1], some 2⟩ ⟨some (Data.text "old", 2)⟩).st
      = ⟨none, none, none⟩ :=
  (write_failure_clears_cache "new" [7] false ⟨true, false, 9⟩
    ⟨some "old", some [1], some 2⟩ ⟨some (Data.text "old", 2)⟩
    (Or.inr rfl)).1.1

/-- Helper: a successful non-bypassed `read_text` leaves exactly the
returned text in `cached_text` (it either served the cache or just
recached what it read). -/
theorem read_text_ok_cached_text (rl cf : Bool) (st : PState) (disk : Disk)
    (txt : String)
    (h : (PavedPath.read_text rl cf false st disk).res = Res.ok txt) :
    (PavedPath.read_text rl cf false st disk).st.cached_text = some txt := by
  cases hcond : (st.cached_text.isNone || rl
      || (cf && PavedPath.is_up_to_date st.cache_timestamp disk)) with
  | true =>
    cases hf : disk.file with
    | none => simp [PavedPath.read_text, hcond, hf] at h
    | some p =>
      obtain ⟨d, m⟩ := p
      simp [PavedPath.read_text, hcond, hf] at h ⊢
      exact h
  | false =>
    cases hct : st.cached_text with
    | none => rw [hct] at hcond; simp at hcond
    | some cv =>
      rw [hct] at hcond
      simp at hcond
      obtain ⟨hrl, hcu⟩ := hcond
      cases hcf : cf with
      | false =>
        simp [PavedPath.read_text, hct, hrl, hcf] at h ⊢
        exact h
      | true =>
        simp [PavedPath.read_text, hct, hrl, hcf, hcu hcf] at h ⊢
        exact h

/-- Claim C8 counterexample: with an empty parsed cache but a stale
populated text cache ("1", timestamp 5) and newer disk content
("2", mtime 9), `read_json()` with no modifiers refreshes the parsed
cache from the *cached* text with zero raw disk reads — it calls
`read_text(reload=False, ...)`, not the forced `read_text(reload=True)`
the claim describes, which would have returned "2". -/
theorem read_json_stale_text_cex :
    (JSONFile.read_json false false ⟨some "1", none, some 5, none⟩
        ⟨some (Data.text "2", 9)⟩).res = Res.ok (JValue.jnum 1)
  ∧ (JSONFile.read_json false false ⟨some "1", none, some 5, none⟩
        ⟨some (Data.text "2", 9)⟩).rawReads = 0
  ∧ (JSONFile.read_json false false ⟨some "1", none, some 5, none⟩
        ⟨some (Data.text "2", 9)⟩).st.cached_json = some (JValue.jnum 1)
  ∧ loads (Data.text "2").asText = some (JValue.jnum 2)
  ∧ ¬ (JValue.jnum 1 = JValue.jnum 2)
  ∧ (JSONFile.read_text true false false ⟨some "1", none, some 5, none⟩
        ⟨some (Data.text "2", 9)⟩).res = Res.ok "2" := by
  refine ⟨rfl, rfl, rfl, rfl, ?_, rfl⟩
  simp

/-- Claim C8 as amended: when the adapter read decides to refresh, it
re-reads text via `read_text` with the *caller's* `reload` and
`check_file` flags passed through (not a forced `reload=true`); the
parsed cache then holds the parse of whatever text that call returned,
which also is the final text cache — so parsed and text caches agree,
but the text need not be freshly read disk content. -/
theorem adapter_refresh_parses_returned_text (rl cf : Bool) :
    (∀ (st : JState) (disk : Disk) (txt : String) (v : JValue),
      (st.cached_json.isNone || rl
          || (cf && PavedPath.is_up_to_date st.cache_timestamp disk)) = true →
      (JSONFile.read_text rl cf false st disk).res = Res.ok txt →
      loads txt = some v →
      (JSONFile.read_text rl cf false st disk).st.cached_text = some txt
      ∧ JSONFile.read_json rl cf st disk
          = ⟨Res.ok v,
             { (JSONFile.read_text rl cf false st disk).st with
                 cached_json := some v },
             (JSONFile.read_text rl cf false st disk).rawReads⟩)
  ∧ (∀ (V : Type) (inst : Inhabited V) (loadY : String → Option V)
       (st : YState V) (disk : Disk) (txt : String) (v : V),
      (st.cached_yaml.isNone || rl
          || (cf && PavedPath.is_up_to_date st.cache_timestamp disk)) = true →
      (YAMLFile.read_text rl cf false st disk).res = Res.ok txt →
      loadY txt = some v →
      (YAMLFile.read_text rl cf false st disk).st.cached_text = some txt
      ∧ @YAMLFile.safe_read_yaml V inst loadY rl cf st disk
          = ⟨Res.ok v,
             { (YAMLFile.read_text rl cf false st disk).st with
                 cached_yaml := some v },
             (YAMLFile.read_text rl cf false st disk).rawReads⟩) := by
  constructor
  · intro st disk txt v hre htxt hv
    have hbase : (PavedPath.read_text rl cf false st.toP disk).res
        = Res.ok txt := htxt
    have hct := read_text_ok_cached_text rl cf st.toP disk txt hbase
    constructor
    · simpa [JSONFile.read_text] using hct
    · simp only [JSONFile.read_json, hre, Bool.or_true, Bool.true_or,
        if_true, reduceIte]
      rw [htxt]
      simp [hv]
  · intro V inst loadY st disk txt v hre htxt hv
    have hbase : (PavedPath.read_text rl cf false st.toP disk).res
        = Res.ok txt := htxt
    have hct := read_text_ok_cached_text rl cf st.toP disk txt hbase
    constructor
    · simpa [YAMLFile.read_text] using hct
    · simp only [YAMLFile.safe_read_yaml, hre, Bool.or_true, Bool.true_or,
        if_true, reduceIte]
      rw [htxt]
      simp [hv]

/-- Witness for C8's amended theorem at a concrete input: with the
parsed cache empty and `reload=true`, the refresh parses the freshly
returned text "2". -/
theorem adapter_refresh_parses_returned_text_witness :
    JSONFile.read_json true false ⟨some "1", none, some 5, none⟩
        ⟨some (Data.text "2", 9)⟩
      = ⟨Res.ok (JValue.jnum 2),
         { (JSONFile.read_text true false false ⟨some "1", none, some 5, none⟩
              ⟨some (Data.text "2", 9)⟩).st with
             cached_json := some (JValue.jnum 2) },
         (JSONFile.read_text true false false ⟨some "1", none, some 5, none⟩
              ⟨some (Data.text "2", 9)⟩).rawReads⟩ :=
  ((adapter_refresh_parses_returned_text true false).1
    ⟨some "1", none, some 5, none⟩ ⟨some (Data.text "2", 9)⟩ "2"
    (JValue.jnum 2) rfl rfl rfl).2

/-- Claim C10: the inherited `read_text`/`read_bytes` never modify the
parsed cache slot of a `JSONFile` (resp. `YAMLFile`), for every flag
combination; consequently, after a forced `read_text(reload=true)` with
a populated parsed cache, a plain `read_json()` (resp.
`safe_read_yaml()`) returns the previously parsed value from the cache
with no disk read, not a parse of the refreshed text. -/
theorem adapter_reads_preserve_parsed_cache (rl cf bp : Bool)
    (st : JState) (disk : Disk) :
    (JSONFile.read_text rl cf bp st disk).st.cached_json = st.cached_json
  ∧ (JSONFile.read_bytes rl cf bp st disk).st.cached_json = st.cached_json
  ∧ (∀ (v : JValue) (disk2 : Disk), st.cached_json = some v →
      JSONFile.read_json false false
          ((JSONFile.read_text true false false st disk).st) disk2
        = ⟨Res.ok v, (JSONFile.read_text true false false st disk).st, 0⟩)
  ∧ (∀ (V : Type) (inst : Inhabited V) (loadY : String → Option V)
       (yst : YState V),
      (YAMLFile.read_text rl cf bp yst disk).st.cached_yaml = yst.cached_yaml
      ∧ (YAMLFile.read_bytes rl cf bp yst disk).st.cached_yaml
          = yst.cached_yaml
      ∧ (∀ (v : V) (disk2 : Disk), yst.cached_yaml = some v →
          @YAMLFile.safe_read_yaml V inst loadY false false
              ((YAMLFile.read_text true false false yst disk).st) disk2
            = ⟨Res.ok v, (YAMLFile.read_text true false false yst disk).st,
               0⟩)) := by
  refine ⟨rfl, rfl, ?_, ?_⟩
  · intro v disk2 hv
    have h2 : (JSONFile.read_text true false false st disk).st.cached_json
        = some v := hv
    simp [JSONFile.read_json, h2]
  · intro V inst loadY yst
    refine ⟨rfl, rfl, ?_⟩
    intro v disk2 hv
    have h2 : (YAMLFile.read_text true false false yst disk).st.cached_yaml
        = some v := hv
    simp [YAMLFile.safe_read_yaml, h2]

/-- Witness for C10 at a concrete input: a forced text reload refreshes
the text cache, yet the subsequent plain `read_json()` still answers
from the untouched parsed cache. -/
theorem adapter_reads_preserve_parsed_cache_witness :
    JSONFile.read_json false false
        ((JSONFile.read_text true false false
            ⟨some "old", none, some 1, some (JValue.jnum 7)⟩
            ⟨some (Data.text "8", 9)⟩).st)
        ⟨some (Data.text "8", 9)⟩
      = ⟨Res.ok (JValue.jnum 7),
         (JSONFile.read_text true false false
            ⟨some "old", none, some 1, some (JValue.jnum 7)⟩
            ⟨some (Data.text "8", 9)⟩).st, 0⟩ :=
  (adapter_reads_preserve_parsed_cache true false false
    ⟨some "old", none, some 1, some (JValue.jnum 7)⟩
    ⟨some (Data.text "8", 9)⟩).2.2.1 (JValue.jnum 7)
    ⟨some (Data.text "8", 9)⟩ rfl

/-- Claim C1 counterexample: the Python-dict value `{1: 2}` (an integer
key) serializes to `{"1": 2}`, which parses back with a *string* key —
it does not round-trip — yet `write_json` raises no error: starting from
a nonexistent file it performs the disk write, creates the file with the
serialized text, and returns normally. -/
theorem write_json_roundtrip_cex :
    loads (dumps (JValue.jobj [(JKey.kint 1, JValue.jnum 2)]))
      = some (JValue.jobj [(JKey.kstr "1", JValue.jnum 2)])
  ∧ ¬ (some (JValue.jobj [(JKey.kstr "1", JValue.jnum 2)])
        = some (JValue.jobj [(JKey.kint 1, JValue.jnum 2)]))
  ∧ (⟨none⟩ : Disk).file = none
  ∧ (JSONFile.write_json (JValue.jobj [(JKey.kint 1, JValue.jnum 2)])
        ⟨true, true, 7⟩ ⟨none, none, none, none⟩ ⟨none⟩).res = Res.ok 8
  ∧ (JSONFile.write_json (JValue.jobj [(JKey.kint 1, JValue.jnum 2)])
        ⟨true, true, 7⟩ ⟨none, none, none, none⟩ ⟨none⟩).disk.file
      = some (Data.text "\x7b\"1\": 2\x7d", 7)
  ∧ (JSONFile.write_json (JValue.jobj [(JKey.kint 1, JValue.jnum 2)])
        ⟨true, true, 7⟩ ⟨none, none, none, none⟩ ⟨none⟩).rawWrites = 1 :=
  ⟨rfl, by simp, rfl, rfl, rfl, rfl⟩

/-- Claim C1 as amended: the adapters perform no round-trip check at
all — `write_json` (and `safe_write_yaml`) unconditionally serialize
and delegate to the underlying write, which proceeds whenever the
filesystem cooperates, for every input value; non-round-tripping input
is written silently (its structured cache slot is simply left empty,
see the C9 theorems). -/
theorem adapter_write_no_roundtrip_check (env : WriteEnv)
    (hm : env.mkdirOk = true) (hw : env.writeOk = true) :
    (∀ (d : JValue) (st : JState) (disk : Disk),
      JSONFile.write_json d env st disk
        = ⟨Res.ok (dumps d).length,
           ⟨some (dumps d), none, some env.newMtime, none⟩,
           ⟨some (Data.text (dumps d), env.newMtime)⟩, 1⟩)
  ∧ (∀ (V : Type) (dumpT : V → String) (dumpB : V → List Nat)
       (enc : Option String) (data : V) (st : YState V) (disk : Disk),
      (YAMLFile.safe_write_yaml dumpT dumpB enc data env st disk).rawWrites
          = 1
      ∧ (YAMLFile.safe_write_yaml dumpT dumpB enc data env st
          disk).disk.file.isSome = true
      ∧ ∀ e, ¬ (YAMLFile.safe_write_yaml dumpT dumpB enc data env st
          disk).res = Res.err e) := by
  constructor
  · intro d st disk
    simp [JSONFile.write_json, JSONFile.write_text, PavedPath.write_text,
      PavedPath.clear_cache, PavedPath.aware_mtime, hm, hw]
  · intro V dumpT dumpB enc data st disk
    cases he : (enc.getD "").isEmpty <;>
      simp [YAMLFile.safe_write_yaml, YAMLFile.write_text,
        YAMLFile.write_bytes, PavedPath.write_text, PavedPath.write_bytes,
        PavedPath.clear_cache, PavedPath.aware_mtime, hm, hw, he]

/-- Witness for C1's amended theorem at concrete inputs: a JSON write of
`null` and a YAML write of the string document "a: 1" both go straight
to disk. -/
theorem adapter_write_no_roundtrip_check_witness :
    JSONFile.write_json JValue.jnull ⟨true, true, 7⟩ ⟨none, none, none, none⟩
        ⟨none⟩
      = ⟨Res.ok 4, ⟨some "null", none, some 7, none⟩,
         ⟨some (Data.text "null", 7)⟩, 1⟩
  ∧ (YAMLFile.safe_write_yaml (fun s => s) (fun _ => []) none "a: 1"
        ⟨true, true, 7⟩ (⟨none, none, none, none⟩ : YState String)
        ⟨none⟩).disk.file.isSome = true :=
  ⟨(adapter_write_no_roundtrip_check ⟨true, true, 7⟩ rfl rfl).1 JValue.jnull
      ⟨none, none, none, none⟩ ⟨none⟩,
   ((adapter_write_no_roundtrip_check ⟨true, true, 7⟩ rfl rfl).2 String
      (fun s => s) (fun _ => []) none "a: 1" ⟨none, none, none, none⟩
      ⟨none⟩).2.1⟩

/-- Claim C9 counterexample: after a successful `write_json` of the
value `{"key": "value"}` from a fresh state, the parsed cache slot
`cached_json` is `None` (not the written structured value); only the
text cache holds the serialized form. -/
theorem write_json_parsed_cache_cex :
    (JSONFile.write_json (JValue.jobj [(JKey.kstr "key", JValue.jstr "value")])
        ⟨true, true, 4⟩ ⟨none, none, none, none⟩ ⟨none⟩).res = Res.ok 16
  ∧ (JSONFile.write_json (JValue.jobj [(JKey.kstr "key", JValue.jstr "value")])
        ⟨true, true, 4⟩ ⟨none, none, none, none⟩ ⟨none⟩).st.cached_json = none
  ∧ (JSONFile.write_json (JValue.jobj [(JKey.kstr "key", JValue.jstr "value")])
        ⟨true, true, 4⟩ ⟨none, none, none, none⟩ ⟨none⟩).st.cached_text
      = some "\x7b\"key\": \"value\"\x7d"
  ∧ ¬ ((none : Option JValue)
        = some (JValue.jobj [(JKey.kstr "key", JValue.jstr "value")])) :=
  ⟨rfl, rfl, rfl, by simp⟩

/-- Claim C9 as amended: a format-adapter write always leaves the
structured cache slot empty — `write_text` dispatches to the overriding
`clear_cache`, which clears it, and nothing repopulates it (the code
deliberately declines a write-through of the structured value because
the dumped text may differ from the input); on success only the text
cache holds the data, as the serialized string. -/
theorem adapter_write_leaves_parsed_cache_empty :
    (∀ (d : JValue) (env : WriteEnv) (st : JState) (disk : Disk),
      (JSONFile.write_json d env st disk).st.cached_json = none
      ∧ (env.mkdirOk = true → env.writeOk = true →
          (JSONFile.write_json d env st disk).st.cached_text
            = some (dumps d)))
  ∧ (∀ (V : Type) (dumpT : V → String) (dumpB : V → List Nat)
       (enc : Option String) (data : V) (env : WriteEnv) (st : YState V)
       (disk : Disk),
      (YAMLFile.safe_write_yaml dumpT dumpB enc data env st
          disk).st.cached_yaml = none) := by
  constructor
  · intro d env st disk
    refine ⟨rfl, ?_⟩
    intro hm hw
    simp [JSONFile.write_json, JSONFile.write_text, PavedPath.write_text,
      PavedPath.clear_cache, PavedPath.aware_mtime, hm, hw]
  · intro V dumpT dumpB enc data env st disk
    cases he : (enc.getD "").isEmpty <;>
      simp [YAMLFile.safe_write_yaml, YAMLFile.write_text,
        YAMLFile.write_bytes, he]

/-- Witness for C9's amended theorem at a concrete input: a successful
`write_json` of the string value "v" leaves `cached_json` empty and the
serialized text `"v"` in the text cache, even when the parsed cache was
previously populated. -/
theorem adapter_write_leaves_parsed_cache_empty_witness :
    (JSONFile.write_json (JValue.jstr "v") ⟨true, true, 3⟩
        ⟨none, none, none, some (JValue.jnum 1)⟩ ⟨none⟩).st.cached_json = none
  ∧ (JSONFile.write_json (JValue.jstr "v") ⟨true, true, 3⟩
        ⟨none, none, none, some (JValue.jnum 1)⟩ ⟨none⟩).st.cached_text
      = some "\"v\"" :=
  ⟨(adapter_write_leaves_parsed_cache_empty.1 (JValue.jstr "v") ⟨true, true, 3⟩
      ⟨none, none, none, some (JValue.jnum 1)⟩ ⟨none⟩).1,
   (adapter_write_leaves_parsed_cache_empty.1 (JValue.jstr "v") ⟨true, true, 3⟩
      ⟨none, none, none, some (JValue.jnum 1)⟩ ⟨none⟩).2 rfl rfl⟩
